import Mathlib

/-!
Shallow embedding of the request-handling core in handlers.py of the
tdwii-plus-examples repository: the UPS query matcher, the in-memory UPS
registry with its lazy directory load, and the C-FIND, C-GET, C-MOVE and
C-STORE handlers, modelled as pure functions.

Python exceptions are modelled with Except; a generator that raises after
yielding some responses is modelled as the list of responses it emitted
together with an optional terminal error.  pydicom attribute access on a
Dataset raises AttributeError when the attribute is absent, so an absent
attribute is an outer none; an attribute that is present but whose value
is None is an inner none.
-/

namespace UpsHandlers

/-- Python runtime errors that the embedded code can raise. -/
inductive PyErr
  | attributeError
  | unboundLocalError
deriving DecidableEq

/-- One item of a ScheduledStationNameCodeSequence; its CodeValue element
value may be None, hence Option. -/
structure CodeItem where
  CodeValue : Option String
deriving DecidableEq

/-- A pydicom Dataset restricted to the attributes read by the matcher.
The outer none of a field models an absent attribute (access raises
AttributeError); the inner none models a present element whose value is
None. -/
structure Dataset where
  SOPInstanceUID : String := ""
  ScheduledStationNameCodeSequence : Option (Option (List CodeItem)) := none
  ProcedureStepState : Option (Option String) := none
deriving DecidableEq

/-- The loop body of get_machine_name_from_ups: the local machine_name is
rebound to each item's CodeValue in turn; the accumulator value none models
the still-unbound local variable. -/
def last_code_value : List CodeItem → Option (Option String) → Option (Option String)
  | [], acc => acc
  | item :: rest, _ => last_code_value rest (some item.CodeValue)

/-- get_machine_name_from_ups: reads query.ScheduledStationNameCodeSequence
(raising AttributeError when the attribute is absent), then iterates the
sequence rebinding machine_name to each item's CodeValue, and returns
machine_name — which is the last item's CodeValue, and raises
UnboundLocalError when the loop never ran (sequence value None or empty). -/
def get_machine_name_from_ups (query : Dataset) : Except PyErr (Option String) :=
  match query.ScheduledStationNameCodeSequence with
  | none => .error .attributeError
  | some none => .error .unboundLocalError
  | some (some items) =>
    match last_code_value items none with
    | none => .error .unboundLocalError
    | some v => .ok v

/-- get_procedure_step_state_from_ups: reads query.ProcedureStepState,
raising AttributeError when the attribute is absent. -/
def get_procedure_step_state_from_ups (query : Dataset) : Except PyErr (Option String) :=
  match query.ProcedureStepState with
  | none => .error .attributeError
  | some v => .ok v

/-- machine_name_matches: extracts the machine name from query and ups (in
that order, propagating any exception); when the requested name is not None
and non-empty the result is the equality test with the scheduled name,
otherwise True. -/
def machine_name_matches (query ups : Dataset) : Except PyErr Bool :=
  match get_machine_name_from_ups query with
  | .error e => .error e
  | .ok requested =>
    match get_machine_name_from_ups ups with
    | .error e => .error e
    | .ok scheduled =>
      match requested with
      | some r => if 0 < r.length then .ok (decide (scheduled = some r)) else .ok true
      | none => .ok true

/-- procedure_step_state_matches: same shape as machine_name_matches over
ProcedureStepState. -/
def procedure_step_state_matches (query ups : Dataset) : Except PyErr Bool :=
  match get_procedure_step_state_from_ups query with
  | .error e => .error e
  | .ok requested =>
    match get_procedure_step_state_from_ups ups with
    | .error e => .error e
    | .ok ups_step_status =>
      match requested with
      | some r => if 0 < r.length then .ok (decide (ups_step_status = some r)) else .ok true
      | none => .ok true

/-- _ups_is_match_for_query: short-circuit conjunction of the machine-name
rule and the procedure-step-state rule, propagating exceptions. -/
def _ups_is_match_for_query (query ups : Dataset) : Except PyErr Bool :=
  match machine_name_matches query ups with
  | .error e => .error e
  | .ok false => .ok false
  | .ok true =>
    match procedure_step_state_matches query ups with
    | .error e => .error e
    | .ok false => .ok false
    | .ok true => .ok true

/-- Satisfaction of one query constraint: an absent (None) or empty
constraint is vacuous, a non-empty constraint requires equality. -/
def constraintSatisfied (c v : Option String) : Bool :=
  match c with
  | some s => if 0 < s.length then decide (v = some s) else true
  | none => true

/-- The machine name a dataset effectively carries: the CodeValue of the
last entry of its ScheduledStationNameCodeSequence, none when that cannot
be extracted. -/
def machine_name_of (d : Dataset) : Option String :=
  match d.ScheduledStationNameCodeSequence with
  | some (some items) =>
    match last_code_value items none with
    | some v => v
    | none => none
  | _ => none

/-- The procedure-step state a dataset carries, none when absent. -/
def step_state_of (d : Dataset) : Option String :=
  match d.ProcedureStepState with
  | some v => v
  | none => none

/-- Both attributes inspected by the matcher are present, with a non-empty
machine-name code sequence: the inputs on which the matcher is total. -/
def has_match_attributes (d : Dataset) : Bool :=
  (match d.ScheduledStationNameCodeSequence with
   | some (some (_ :: _)) => true
   | _ => false) && d.ProcedureStepState.isSome

/-- Modelled from the spec: the machine name of section 4.2 is the code
value of the FIRST entry of the machine-name-code sequence, if present;
absent or empty means unconstrained. -/
def first_machine_name (d : Dataset) : Option String :=
  match d.ScheduledStationNameCodeSequence with
  | some (some (item :: _)) => item.CodeValue
  | _ => none

/-- Modelled from the spec: the machine-name rule of section 4.2, using the
first sequence entry on both sides and vacuously satisfied when the query
constraint is absent or empty. -/
def machine_name_matches_firstEntry (query ups : Dataset) : Bool :=
  constraintSatisfied (first_machine_name query) (first_machine_name ups)

theorem last_code_value_some (l : List CodeItem) (x : Option String) :
    ∃ y, last_code_value l (some x) = some y := by
  induction l generalizing x with
  | nil => exact ⟨x, rfl⟩
  | cons a t ih => exact ih a.CodeValue

theorem last_code_value_getLastD (l : List CodeItem) (a : CodeItem) (x : Option (Option String)) :
    last_code_value (a :: l) x = some (l.getLastD a).CodeValue := by
  induction l generalizing a x with
  | nil => rfl
  | cons b t ih =>
    rw [List.getLastD_cons]
    exact ih b (some a.CodeValue)

theorem get_machine_name_wf (d : Dataset) (a : CodeItem) (l : List CodeItem)
    (h : d.ScheduledStationNameCodeSequence = some (some (a :: l))) :
    get_machine_name_from_ups d = .ok (machine_name_of d) := by
  simp only [get_machine_name_from_ups, machine_name_of, h, last_code_value_getLastD]

theorem machine_name_of_wf (d : Dataset) (a : CodeItem) (l : List CodeItem)
    (h : d.ScheduledStationNameCodeSequence = some (some (a :: l))) :
    machine_name_of d = (l.getLastD a).CodeValue := by
  simp only [machine_name_of, h, last_code_value_getLastD]

theorem machine_name_matches_wf (q i : Dataset) (qa ia : CodeItem) (ql il : List CodeItem)
    (hq : q.ScheduledStationNameCodeSequence = some (some (qa :: ql)))
    (hi : i.ScheduledStationNameCodeSequence = some (some (ia :: il))) :
    machine_name_matches q i = .ok (constraintSatisfied (machine_name_of q) (machine_name_of i)) := by
  unfold machine_name_matches
  rw [get_machine_name_wf q qa ql hq, get_machine_name_wf i ia il hi]
  rcases machine_name_of q with _ | s
  · rfl
  · unfold constraintSatisfied
    by_cases h : 0 < s.length <;> simp [h]

theorem step_state_matches_wf (q i : Dataset) (vq vi : Option String)
    (hq : q.ProcedureStepState = some vq) (hi : i.ProcedureStepState = some vi) :
    procedure_step_state_matches q i = .ok (constraintSatisfied (step_state_of q) (step_state_of i)) := by
  unfold procedure_step_state_matches get_procedure_step_state_from_ups step_state_of
  rw [hq, hi]
  rcases vq with _ | s
  · rfl
  · unfold constraintSatisfied
    by_cases h : 0 < s.length <;> simp [h]

/-- The module-level dict _ups_instances, keyed by SOPInstanceUID, in
insertion order. -/
abbrev Registry := List (String × Dataset)

/-- _add_ups_instance: insert keyed by SOPInstanceUID, a no-op when the key
is already present. -/
def _add_ups_instance (reg : Registry) (ds : Dataset) : Registry :=
  if (reg.find? (fun p => p.1 == ds.SOPInstanceUID)).isSome then reg
  else reg ++ [(ds.SOPInstanceUID, ds)]

/-- _remove_ups_instance: delete by SOPInstanceUID, a no-op when absent. -/
def _remove_ups_instance (reg : Registry) (ds : Dataset) : Registry :=
  reg.filter (fun p => !(p.1 == ds.SOPInstanceUID))

/-- The try-block of _reload_ups_instances: dcmread each globbed file in
order, appending to ups_instance_list; the except clause around the WHOLE
loop means the first failing file aborts the loop, dropping that file and
every later one.  A directory listing is a list of per-file dcmread
outcomes. -/
def load_loop : List (Except Unit Dataset) → List Dataset
  | [] => []
  | .ok ds :: rest => ds :: load_loop rest
  | .error _ :: _ => []

/-- _reload_ups_instances: when the registry is empty, glob the instance
directory (one directory scan, counted in the second component) and run
load_loop, then _add_ups_instance each loaded dataset; when the registry is
non-empty no scan happens and the loop over the empty list leaves the
registry unchanged. -/
def _reload_ups_instances (reg : Registry) (files : List (Except Unit Dataset)) :
    Registry × Nat :=
  if reg.length = 0 then ((load_loop files).foldl _add_ups_instance reg, 1)
  else (reg, 0)

/-- Iterate _reload_ups_instances n times from the empty registry against a
fixed directory listing, accumulating the number of directory scans. -/
def reload_iter (files : List (Except Unit Dataset)) : Nat → Registry × Nat
  | 0 => ([], 0)
  | n + 1 =>
    let p := reload_iter files n
    let q := _reload_ups_instances p.1 files
    (q.1, p.2 + q.2)

/-- One response emitted by a handler generator: the sub-operation count,
a (status, dataset) pair, the move destination triple, or the (None, None)
pair for an unknown move destination. -/
inductive Resp
  | subOps (n : Nat)
  | status (code : Nat) (ds : Option Dataset)
  | dest (addr : String) (port : Nat) (contexts : List Nat)
  | noDest
deriving DecidableEq

/-- What a generator produced: the responses it yielded, and the error it
raised afterwards, if any. -/
structure GenOut where
  out : List Resp
  err : Option PyErr
deriving DecidableEq

/-- Errors the external Catalog search can raise. -/
inductive SearchErr
  | invalidIdentifier
  | other
deriving DecidableEq

/-- One match returned by the external Catalog: the outcome of calling
as_identifier on it, the outcome of dcmread on its filename, and its
presentation context, the only parts of a match this core consumes. -/
instance {ε α : Type} [DecidableEq ε] [DecidableEq α] : DecidableEq (Except ε α) :=
  fun x y =>
    match x, y with
    | .ok a, .ok b =>
      if h : a = b then isTrue (by rw [h]) else isFalse (by intro he; cases he; exact h rfl)
    | .error e, .error f =>
      if h : e = f then isTrue (by rw [h]) else isFalse (by intro he; cases he; exact h rfl)
    | .ok _, .error _ => isFalse (by intro he; cases he)
    | .error _, .ok _ => isFalse (by intro he; cases he)

structure DbMatch where
  as_identifier : Except Unit Dataset := .error ()
  read : Except Unit Dataset := .error ()
  context : Nat := 0
deriving DecidableEq

/-- The shared per-match loop of the catalog branches of handle_find,
handle_get and handle_move (failCode is 0xC322, 0xC421 and 0xC521
respectively, item is as_identifier for find and dcmread for get/move):
poll event.is_cancelled at the top of iteration k (yield 0xFE00 and return
when set); on a per-item failure yield (failCode, None) and FALL THROUGH to
the unconditional yield of (0xFF00, the local dataset variable) — which
raises UnboundLocalError when no earlier item succeeded, and otherwise
re-emits the previously bound dataset. -/
def yield_loop (failCode : Nat) (cancelled : Nat → Bool) :
    List (Except Unit Dataset) → Nat → Option Dataset → GenOut
  | [], _, _ => ⟨[], none⟩
  | item :: rest, k, prev =>
    if cancelled k then ⟨[Resp.status 0xFE00 none], none⟩
    else
      match item with
      | .ok ds =>
        let r := yield_loop failCode cancelled rest (k + 1) (some ds)
        ⟨Resp.status 0xFF00 (some ds) :: r.out, r.err⟩
      | .error _ =>
        match prev with
        | none => ⟨[Resp.status failCode none], some .unboundLocalError⟩
        | some pds =>
          let r := yield_loop failCode cancelled rest (k + 1) (some pds)
          ⟨Resp.status failCode none :: Resp.status 0xFF00 (some pds) :: r.out, r.err⟩

/-- The work-item branch of handle_find: for each registry value matched by
_ups_is_match_for_query yield (0xFF00, item), then yield (0x0000, None);
an exception from the matcher propagates out of the generator.  The
cancellation flag is never consulted on this branch. -/
def ups_find_loop (query : Dataset) : List Dataset → GenOut
  | [] => ⟨[Resp.status 0x0000 none], none⟩
  | ups :: rest =>
    match _ups_is_match_for_query query ups with
    | .error e => ⟨[], some e⟩
    | .ok true =>
      let r := ups_find_loop query rest
      ⟨Resp.status 0xFF00 (some ups) :: r.out, r.err⟩
    | .ok false => ups_find_loop query rest

/-- The targeted work model of a C-FIND request. -/
inductive QueryModel
  | upsPull
  | composite
deriving DecidableEq

/-- The result of a handle_find invocation: the responses, the error the
generator raised (if any), the registry after the reload step, and the
number of directory scans the invocation performed. -/
structure FindOut where
  out : List Resp
  err : Option PyErr
  registry : Registry
  scans : Nat
deriving DecidableEq

/-- handle_find: reload the UPS registry (lazy, one scan at most), then
dispatch on the targeted model.  The UnifiedProcedureStepPull branch
streams the registry matches and a Success terminator without ever
consulting the cancellation flag; the composite branch maps a search error
to 0xA900 or 0xC320 and otherwise runs the cancellation-aware loop over
as_identifier results. -/
def handle_find (model : QueryModel) (reg : Registry) (files : List (Except Unit Dataset))
    (query : Dataset) (searchResult : Except SearchErr (List DbMatch))
    (cancelled : Nat → Bool) : FindOut :=
  let rs := _reload_ups_instances reg files
  match model with
  | .upsPull =>
    let g := ups_find_loop query (rs.1.map (fun p => p.2))
    ⟨g.out, g.err, rs.1, rs.2⟩
  | .composite =>
    let g : GenOut :=
      match searchResult with
      | .error .invalidIdentifier => GenOut.mk [Resp.status 0xA900 none] none
      | .error .other => GenOut.mk [Resp.status 0xC320 none] none
      | .ok ms => yield_loop 0xC322 cancelled (ms.map (fun m => m.as_identifier)) 0 none
    ⟨g.out, g.err, rs.1, rs.2⟩

/-- handle_get: map a search error to 0xA900 or 0xC420; otherwise yield the
number of matches and run the per-match loop (failure code 0xC421) over the
dcmread results.  No terminal status is yielded after the loop. -/
def handle_get (searchResult : Except SearchErr (List DbMatch))
    (cancelled : Nat → Bool) : GenOut :=
  match searchResult with
  | .error .invalidIdentifier => ⟨[Resp.status 0xA900 none], none⟩
  | .error .other => ⟨[Resp.status 0xC420 none], none⟩
  | .ok ms =>
    let g := yield_loop 0xC421 cancelled (ms.map (fun m => m.read)) 0 none
    ⟨Resp.subOps ms.length :: g.out, g.err⟩

/-- Order-preserving deduplication, modelling list(set(..)) over the match
contexts. -/
def dedup (l : List Nat) : List Nat :=
  l.foldl (fun acc x => if acc.contains x then acc else acc ++ [x]) []

/-- The result of a handle_move invocation: responses, raised error, and
whether the Catalog was queried at all. -/
structure MoveOut where
  out : List Resp
  err : Option PyErr
  catalogQueried : Bool
deriving DecidableEq

/-- handle_move: look the move destination up in the destination table;
on a KeyError yield (None, None) and return without touching the Catalog.
Otherwise map a search error to 0xA900 or 0xC520, or yield the destination
triple (contexts deduplicated and capped at 128), the number of matches,
and the per-match loop (failure code 0xC521) over the dcmread results. -/
def handle_move (destinations : List (String × String × Nat)) (move_destination : String)
    (searchResult : Except SearchErr (List DbMatch)) (cancelled : Nat → Bool) : MoveOut :=
  match destinations.find? (fun p => p.1 == move_destination) with
  | none => ⟨[Resp.noDest], none, false⟩
  | some (_, a, p) =>
    match searchResult with
    | .error .invalidIdentifier => ⟨[Resp.status 0xA900 none], none, true⟩
    | .error .other => ⟨[Resp.status 0xC520 none], none, true⟩
    | .ok ms =>
      let g := yield_loop 0xC521 cancelled (ms.map (fun m => m.read)) 0 none
      ⟨Resp.dest a p ((dedup (ms.map (fun m => m.context))).take 128)
        :: Resp.subOps ms.length :: g.out, g.err, true⟩

/-- handle_store: a dataset decode failure returns 0xC210 before anything
is written; a save_as failure returns 0xA700; after a successful write the
database upsert is attempted and its outcome only logged — the handler
returns 0x0000 whether it succeeded or raised. -/
def handle_store (dataset_decode : Except Unit Dataset)
    (write_result : Except Unit Unit) (db_result : Except Unit Unit) : Nat :=
  match dataset_decode with
  | .error _ => 0xC210
  | .ok _ =>
    match write_result with
    | .error _ => 0xA700
    | .ok _ =>
      match db_result with
      | .error _ => 0x0000
      | .ok _ => 0x0000

theorem ups_is_match_eq_and (q i : Dataset) (x y : Bool)
    (hm : machine_name_matches q i = .ok x)
    (hp : procedure_step_state_matches q i = .ok y) :
    _ups_is_match_for_query q i = .ok (x && y) := by
  unfold _ups_is_match_for_query
  rw [hm, hp]
  cases x <;> cases y <;> rfl

theorem seq_of_attrs (d : Dataset) (h : has_match_attributes d = true) :
    ∃ a l, d.ScheduledStationNameCodeSequence = some (some (a :: l)) := by
  unfold has_match_attributes at h
  rcases hs : d.ScheduledStationNameCodeSequence with _ | os
  · rw [hs] at h; simp at h
  · rcases os with _ | items
    · rw [hs] at h; simp at h
    · rcases items with _ | ⟨a, l⟩
      · rw [hs] at h; simp at h
      · exact ⟨a, l, rfl⟩

theorem state_of_attrs (d : Dataset) (h : has_match_attributes d = true) :
    ∃ v, d.ProcedureStepState = some v := by
  unfold has_match_attributes at h
  rcases hs : d.ProcedureStepState with _ | v
  · rw [hs] at h; simp at h
  · exact ⟨v, rfl⟩

/-- A well-formed SCHEDULED work item on machine TR1. -/
def itemTR1 : Dataset :=
  { SOPInstanceUID := "1.2.3.1"
    ScheduledStationNameCodeSequence := some (some [{ CodeValue := some "TR1" }])
    ProcedureStepState := some (some "SCHEDULED") }

/-- A well-formed COMPLETED work item on machine TR2. -/
def itemTR2 : Dataset :=
  { SOPInstanceUID := "1.2.3.2"
    ScheduledStationNameCodeSequence := some (some [{ CodeValue := some "TR2" }])
    ProcedureStepState := some (some "COMPLETED") }

/-- A well-formed SCHEDULED work item on machine TRA. -/
def itemTRA : Dataset :=
  { SOPInstanceUID := "1.2.3.3"
    ScheduledStationNameCodeSequence := some (some [{ CodeValue := some "TRA" }])
    ProcedureStepState := some (some "SCHEDULED") }

/-- A query whose constraints are present but empty: it matches every
well-formed item. -/
def queryEmptyConstraints : Dataset :=
  { SOPInstanceUID := "query-empty"
    ScheduledStationNameCodeSequence := some (some [{ CodeValue := some "" }])
    ProcedureStepState := some (some "") }

/-- A query with neither constraint attribute present. -/
def queryNoAttrs : Dataset :=
  { SOPInstanceUID := "query-no-constraints" }

/-- A query whose machine-name code sequence has two entries, TRA then
TRB, and no step-state constraint value. -/
def queryTwoNames : Dataset :=
  { SOPInstanceUID := "query-two-names"
    ScheduledStationNameCodeSequence :=
      some (some [{ CodeValue := some "TRA" }, { CodeValue := some "TRB" }])
    ProcedureStepState := some (some "") }

/-- C1 (amended): on datasets that carry both matcher attributes (machine-
name code sequence present and non-empty, procedure-step state present) the
matcher is total and returns true iff every non-empty constraint of the
query equals the corresponding field of the item; a query whose present
constraints are empty matches every such item.  (As stated the claim is
false: the predicate raises when an attribute is absent, see the
counterexample.) -/
theorem C1_match_iff_nonempty_constraints_equal (q i : Dataset)
    (hq : has_match_attributes q = true) (hi : has_match_attributes i = true) :
    _ups_is_match_for_query q i =
      .ok (constraintSatisfied (machine_name_of q) (machine_name_of i) &&
           constraintSatisfied (step_state_of q) (step_state_of i)) := by
  obtain ⟨qa, ql, hq1⟩ := seq_of_attrs q hq
  obtain ⟨ia, il, hi1⟩ := seq_of_attrs i hi
  obtain ⟨vq, hq2⟩ := state_of_attrs q hq
  obtain ⟨vi, hi2⟩ := state_of_attrs i hi
  exact ups_is_match_eq_and q i _ _
    (machine_name_matches_wf q i qa ia ql il hq1 hi1)
    (step_state_matches_wf q i vq vi hq2 hi2)

/-- Witness for C1: the empty-constraints query matches the TR1 item. -/
theorem C1_match_iff_nonempty_constraints_equal_witness :
    _ups_is_match_for_query queryEmptyConstraints itemTR1 = .ok true := by
  have h := C1_match_iff_nonempty_constraints_equal queryEmptyConstraints itemTR1
    (by decide) (by decide)
  rw [h]
  decide

/-- C1 counterexample: a query with both constraints absent does not match
every item — the matcher is not total, it raises AttributeError on the
first absent attribute instead of returning true. -/
theorem C1_counterexample_absent_attributes_raise :
    _ups_is_match_for_query queryNoAttrs itemTR1 = .error PyErr.attributeError := rfl

/-- C5 (amended): the machine name used by the matcher's machine-name rule
is the code value of the LAST entry of ScheduledStationNameCodeSequence,
extracted the same way from query and item; when both sequences are present
and non-empty the rule fails exactly when the query's value is non-None,
non-empty and unequal to the item's value.  (When the sequence is absent,
None or empty the extraction raises instead of being vacuous.) -/
theorem C5_machine_name_rule_uses_last_entry (q i : Dataset) (qa ia : CodeItem)
    (ql il : List CodeItem)
    (hq : q.ScheduledStationNameCodeSequence = some (some (qa :: ql)))
    (hi : i.ScheduledStationNameCodeSequence = some (some (ia :: il))) :
    get_machine_name_from_ups q = .ok ((ql.getLastD qa).CodeValue) ∧
    machine_name_matches q i =
      .ok (constraintSatisfied ((ql.getLastD qa).CodeValue) ((il.getLastD ia).CodeValue)) := by
  have h2 := machine_name_of_wf q qa ql hq
  have h3 := machine_name_of_wf i ia il hi
  constructor
  · rw [get_machine_name_wf q qa ql hq, h2]
  · rw [machine_name_matches_wf q i qa ia ql il hq hi, h2, h3]

/-- Witness for C5: on the two-entry query the extracted name is TRB, the
last entry, and the rule rejects the TRA item. -/
theorem C5_machine_name_rule_uses_last_entry_witness :
    get_machine_name_from_ups queryTwoNames = .ok (some "TRB") ∧
    machine_name_matches queryTwoNames itemTRA = .ok false := by
  have h := C5_machine_name_rule_uses_last_entry queryTwoNames itemTRA
    { CodeValue := some "TRA" } { CodeValue := some "TRA" }
    [{ CodeValue := some "TRB" }] [] rfl rfl
  exact ⟨by rw [h.1]; decide, by rw [h.2]; decide⟩

/-- C5 counterexample: the code compares the LAST entry of the query's
sequence (TRB, rejecting the TRA item) while the spec's first-entry rule
(first entries TRA and TRA) accepts. -/
theorem C5_counterexample_first_vs_last :
    machine_name_matches queryTwoNames itemTRA = .ok false ∧
    machine_name_matches_firstEntry queryTwoNames itemTRA = true := by decide

/-- A cancellation flag that is never set. -/
def cFalse : Nat → Bool := fun _ => false

theorem load_loop_oks (post : List (Except Unit Dataset)) (e : Unit) (l : List Dataset) :
    load_loop (l.map Except.ok ++ Except.error e :: post) = l := by
  induction l with
  | nil => rfl
  | cons a t ih => simpa [load_loop] using ih

/-- C4 (amended): a deserialization failure at position k aborts the scan
loop: the files before it are loaded and inserted, the failing file and
every file after it are skipped. -/
theorem C4_load_aborts_at_first_failure (pre : List Dataset) (e : Unit)
    (post : List (Except Unit Dataset)) :
    load_loop (pre.map Except.ok ++ Except.error e :: post) = pre ∧
    (_reload_ups_instances [] (pre.map Except.ok ++ Except.error e :: post)).1 =
      pre.foldl _add_ups_instance [] := by
  refine ⟨load_loop_oks post e pre, ?_⟩
  simp [_reload_ups_instances, load_loop_oks post e pre]

/-- C4 counterexample: when the first file of the listing fails to
deserialize and the second would succeed, nothing at all is loaded — the
remaining files are not scanned, contradicting the claim that every file
after the failing one is still loaded. -/
theorem C4_counterexample_later_file_not_loaded :
    (_reload_ups_instances [] [Except.error (), Except.ok itemTR1]).1 = [] := by decide

/-- C10: the load-once guard tests only emptiness of the registry, so while
every load attempt leaves the registry empty (here: the scan loads
nothing), each of n successive reload invocations performs its own
directory scan. -/
theorem C10_rescan_while_registry_empty (files : List (Except Unit Dataset))
    (h : load_loop files = []) (n : Nat) :
    reload_iter files n = ([], n) := by
  induction n with
  | zero => rfl
  | succ k ih => simp [reload_iter, ih, _reload_ups_instances, h]

/-- Witness for C10: three calls against a directory whose single file
always fails to deserialize perform three scans. -/
theorem C10_rescan_while_registry_empty_witness :
    reload_iter [Except.error ()] 3 = ([], 3) :=
  C10_rescan_while_registry_empty [Except.error ()] rfl 3

theorem add_ups_ne_nil (reg : Registry) (d : Dataset) (h : reg ≠ []) :
    _add_ups_instance reg d ≠ [] := by
  unfold _add_ups_instance
  split
  · exact h
  · simp

theorem foldl_add_ne_nil (l : List Dataset) (reg : Registry) (h : reg ≠ []) :
    l.foldl _add_ups_instance reg ≠ [] := by
  induction l generalizing reg with
  | nil => exact h
  | cons a t ih => exact ih (_add_ups_instance reg a) (add_ups_ne_nil reg a h)

theorem reload_nonempty (reg : Registry) (fs : List (Except Unit Dataset)) (h : reg ≠ []) :
    _reload_ups_instances reg fs = (reg, 0) := by
  unfold _reload_ups_instances
  rw [if_neg (by simpa [List.length_eq_zero] using h)]

theorem reload_from_empty (files : List (Except Unit Dataset)) :
    _reload_ups_instances [] files = ((load_loop files).foldl _add_ups_instance [], 1) := by
  simp [_reload_ups_instances]

theorem handle_find_registry (model : QueryModel) (reg : Registry)
    (files : List (Except Unit Dataset)) (q : Dataset)
    (sr : Except SearchErr (List DbMatch)) (c : Nat → Bool) :
    (handle_find model reg files q sr c).registry = (_reload_ups_instances reg files).1 := by
  cases model <;> rfl

theorem handle_find_scans (model : QueryModel) (reg : Registry)
    (files : List (Except Unit Dataset)) (q : Dataset)
    (sr : Except SearchErr (List DbMatch)) (c : Nat → Bool) :
    (handle_find model reg files q sr c).scans = (_reload_ups_instances reg files).2 := by
  cases model <;> rfl

/-- C6: two handle_find invocations against the same directory, the first
starting from the empty registry and loading at least one item, perform
exactly one directory scan between them, the second leaves the registry
unchanged, and in general a reload against a non-empty registry neither
scans nor changes anything. -/
theorem C6_lazy_load_once (model model' : QueryModel) (files : List (Except Unit Dataset))
    (q q' : Dataset) (sr sr' : Except SearchErr (List DbMatch)) (c c' : Nat → Bool)
    (d : Dataset) (t : List Dataset) (hload : load_loop files = d :: t) :
    (handle_find model [] files q sr c).scans = 1 ∧
    (handle_find model' (handle_find model [] files q sr c).registry files q' sr' c').scans = 0 ∧
    (handle_find model' (handle_find model [] files q sr c).registry files q' sr' c').registry =
      (handle_find model [] files q sr c).registry ∧
    (∀ (reg : Registry) (fs : List (Except Unit Dataset)), reg ≠ [] →
       _reload_ups_instances reg fs = (reg, 0)) := by
  have hne : (handle_find model [] files q sr c).registry ≠ [] := by
    rw [handle_find_registry, reload_from_empty, hload]
    exact foldl_add_ne_nil t (_add_ups_instance [] d) (by simp [_add_ups_instance])
  refine ⟨?_, ?_, ?_, fun reg fs h => reload_nonempty reg fs h⟩
  · rw [handle_find_scans, reload_from_empty]
  · rw [handle_find_scans, reload_nonempty _ _ hne]
  · rw [handle_find_registry, reload_nonempty _ _ hne]

/-- Witness for C6: a directory with one loadable item is scanned once by
the first call and not rescanned by the second. -/
theorem C6_lazy_load_once_witness :
    (handle_find QueryModel.upsPull [] [Except.ok itemTR1] queryEmptyConstraints
       (Except.ok []) cFalse).scans = 1 ∧
    (handle_find QueryModel.upsPull
       (handle_find QueryModel.upsPull [] [Except.ok itemTR1] queryEmptyConstraints
          (Except.ok []) cFalse).registry [Except.ok itemTR1] queryEmptyConstraints
       (Except.ok []) cFalse).scans = 0 ∧
    (handle_find QueryModel.upsPull
       (handle_find QueryModel.upsPull [] [Except.ok itemTR1] queryEmptyConstraints
          (Except.ok []) cFalse).registry [Except.ok itemTR1] queryEmptyConstraints
       (Except.ok []) cFalse).registry =
      (handle_find QueryModel.upsPull [] [Except.ok itemTR1] queryEmptyConstraints
         (Except.ok []) cFalse).registry ∧
    (∀ (reg : Registry) (fs : List (Except Unit Dataset)), reg ≠ [] →
       _reload_ups_instances reg fs = (reg, 0)) :=
  C6_lazy_load_once QueryModel.upsPull QueryModel.upsPull [Except.ok itemTR1]
    queryEmptyConstraints queryEmptyConstraints (Except.ok []) (Except.ok [])
    cFalse cFalse itemTR1 [] rfl

/-- C7: when the payload decodes and the file write succeeds the store
handler returns Success (0x0000) whatever the catalog upsert did, and in
general the returned status never depends on the catalog outcome. -/
theorem C7_store_status_ignores_catalog :
    (∀ (ds : Dataset) (db : Except Unit Unit),
       handle_store (.ok ds) (.ok ()) db = 0x0000) ∧
    (∀ (dec : Except Unit Dataset) (w db db' : Except Unit Unit),
       handle_store dec w db = handle_store dec w db') := by
  constructor
  · intro ds db; cases db <;> rfl
  · intro dec w db db'
    cases dec <;> cases w <;> cases db <;> cases db' <;> rfl

/-- C8: a move request naming a destination absent from the destination
table yields exactly the single (None, None) response, raises nothing, and
never queries the catalog. -/
theorem C8_unknown_move_destination (destinations : List (String × String × Nat))
    (dst : String) (sr : Except SearchErr (List DbMatch)) (c : Nat → Bool)
    (h : destinations.find? (fun p => p.1 == dst) = none) :
    handle_move destinations dst sr c = ⟨[Resp.noDest], none, false⟩ := by
  unfold handle_move
  rw [h]

/-- Witness for C8: the destination UNKNOWN is not in a one-entry table. -/
theorem C8_unknown_move_destination_witness :
    handle_move [("STORESCP", "127.0.0.1", 104)] "UNKNOWN" (Except.ok []) cFalse =
      ⟨[Resp.noDest], none, false⟩ :=
  C8_unknown_move_destination [("STORESCP", "127.0.0.1", 104)] "UNKNOWN"
    (Except.ok []) cFalse (by decide)

/-- The cancellation flag of the C2 scenario: clear for the first poll, set
from the second on. -/
def cancelFromSecond : Nat → Bool := fun k => decide (1 ≤ k)

/-- C2 counterexample: on the work-item-model path, with two matching items
and the cancellation flag set before the second emission, the handler still
emits both pending pairs and the Success terminator — not one pending pair
followed by a single Canceled status — because that path never consults the
flag. -/
theorem C2_counterexample_ups_path_ignores_cancellation :
    (handle_find QueryModel.upsPull [("1.2.3.1", itemTR1), ("1.2.3.2", itemTR2)] []
       queryEmptyConstraints (Except.ok []) cancelFromSecond).out =
      [Resp.status 0xFF00 (some itemTR1), Resp.status 0xFF00 (some itemTR2),
       Resp.status 0x0000 none] ∧
    (handle_find QueryModel.upsPull [("1.2.3.1", itemTR1), ("1.2.3.2", itemTR2)] []
       queryEmptyConstraints (Except.ok []) cancelFromSecond).out ≠
      [Resp.status 0xFF00 (some itemTR1), Resp.status 0xFE00 none] := by decide

/-- C2 (amended): on the catalog path, with at least two matches and the
cancellation flag clear at the first poll and set at the second, the
response stream is exactly one (PendingMatch, record) pair followed by a
single Canceled status and the generator raises nothing; on the
work-item-model path the cancellation flag is never consulted — the output
is identical for every flag. -/
theorem C2_cancellation_before_second_emission (reg : Registry)
    (files : List (Except Unit Dataset)) (q : Dataset) (m m2 : DbMatch)
    (rest : List DbMatch) (d : Dataset) (c : Nat → Bool)
    (h0 : c 0 = false) (h1 : c 1 = true) (hm : m.as_identifier = .ok d) :
    ((handle_find QueryModel.composite reg files q (.ok (m :: m2 :: rest)) c).out =
       [Resp.status 0xFF00 (some d), Resp.status 0xFE00 none] ∧
     (handle_find QueryModel.composite reg files q (.ok (m :: m2 :: rest)) c).err = none) ∧
    (∀ (reg' : Registry) (files' : List (Except Unit Dataset)) (q' : Dataset)
       (sr : Except SearchErr (List DbMatch)) (c₁ c₂ : Nat → Bool),
       (handle_find QueryModel.upsPull reg' files' q' sr c₁).out =
         (handle_find QueryModel.upsPull reg' files' q' sr c₂).out) := by
  refine ⟨⟨?_, ?_⟩, ?_⟩
  · simp [handle_find, yield_loop, h0, h1, hm]
  · simp [handle_find, yield_loop, h0, h1, hm]
  · intro reg' files' q' sr c₁ c₂
    rfl

/-- Witness for C2: a two-match catalog search cancelled before the second
emission yields one pending pair then Canceled. -/
theorem C2_cancellation_before_second_emission_witness :
    (handle_find QueryModel.composite [] [] queryEmptyConstraints
       (Except.ok [{ as_identifier := Except.ok itemTR1 }, {}]) cancelFromSecond).out =
      [Resp.status 0xFF00 (some itemTR1), Resp.status 0xFE00 none] :=
  ((C2_cancellation_before_second_emission [] [] queryEmptyConstraints
      { as_identifier := Except.ok itemTR1 } {} [] itemTR1 cancelFromSecond
      rfl rfl rfl).1).1

/-- C3: evaluation at the failing inputs.  The claim (with the spec)
requires exactly N pending/status pairs and normal completion when one of
N matched records fails to read; the code contradicts the evident intent of
its own per-item try/except: with the failing match first (N = 1) it raises
UnboundLocalError at the unconditional pending yield after emitting only
the Failure status, and with the failing match second (N = 2) it emits
N + 1 = 3 pairs, duplicating the previous dataset. -/
theorem C3_per_item_read_failure_not_resilient :
    handle_get (Except.ok [{ read := Except.error () }]) cFalse =
      ⟨[Resp.subOps 1, Resp.status 0xC421 none], some PyErr.unboundLocalError⟩ ∧
    handle_get (Except.ok [{ read := Except.ok itemTR1 }, { read := Except.error () }]) cFalse =
      ⟨[Resp.subOps 2, Resp.status 0xFF00 (some itemTR1), Resp.status 0xC421 none,
        Resp.status 0xFF00 (some itemTR1)], none⟩ := by decide

/-- C9: in the bulk-retrieve loops a failing read falls through, after the
per-item Failure status, to the unconditional pending yield: when the first
match fails the dataset local is unbound and the generator raises
UnboundLocalError, producing no pending pair for it; when a later match
fails the loop emits the Failure status and then an extra pending pair
carrying the previously read dataset, and continues. -/
theorem C9_read_failure_falls_through (m : DbMatch) (rest : List DbMatch)
    (c : Nat → Bool) (h0 : c 0 = false) (hr : m.read = .error ()) :
    handle_get (.ok (m :: rest)) c =
      ⟨[Resp.subOps (rest.length + 1), Resp.status 0xC421 none],
       some PyErr.unboundLocalError⟩ ∧
    (∀ (fc k : Nat) (c' : Nat → Bool) (p : Dataset)
       (items : List (Except Unit Dataset)), c' k = false →
       yield_loop fc c' (Except.error () :: items) k (some p) =
         ⟨Resp.status fc none :: Resp.status 0xFF00 (some p) ::
            (yield_loop fc c' items (k + 1) (some p)).out,
          (yield_loop fc c' items (k + 1) (some p)).err⟩) := by
  constructor
  · simp [handle_get, yield_loop, h0, hr]
  · intro fc k c' p items hk
    simp [yield_loop, hk]

/-- Witness for C9: a first-match read failure crashes the C-GET generator
after the Failure status; a read failure with a previously read dataset
(the C-MOVE loop instance) re-emits that dataset. -/
theorem C9_read_failure_falls_through_witness :
    handle_get (Except.ok [{ read := Except.error () }]) cFalse =
      ⟨[Resp.subOps 1, Resp.status 0xC421 none], some PyErr.unboundLocalError⟩ ∧
    yield_loop 0xC521 cFalse [Except.error ()] 0 (some itemTR1) =
      ⟨Resp.status 0xC521 none :: Resp.status 0xFF00 (some itemTR1) ::
         (yield_loop 0xC521 cFalse [] 1 (some itemTR1)).out,
       (yield_loop 0xC521 cFalse [] 1 (some itemTR1)).err⟩ :=
  ⟨(C9_read_failure_falls_through { read := Except.error () } [] cFalse rfl rfl).1,
   (C9_read_failure_falls_through { read := Except.error () } [] cFalse rfl rfl).2
     0xC521 0 cFalse itemTR1 [] rfl⟩

end UpsHandlers
